import Mathlib

/-!
# Verification of the `remind` background scheduler

Shallow embedding of the scheduler daemon of the `remind` reminder manager:

* `apps/cli/src/remind_cli/services/scheduler_service.py` (`SchedulerRunner`),
* `apps/cli/src/remind_cli/notifications.py` (`NotificationManager`),
* `packages/database/src/remind_database/repositories/reminder.py`
  (`ReminderRepository.get_overdue` / `get_upcoming`).

Timestamps are modelled as integers counting seconds.  A Python *naive*
`datetime` is just such a number; `datetime.now()` reads `utc_now +
local_offset` (the host's local wall clock) while `datetime.now(timezone.utc)`
reads `utc_now`.  Strings are `List Char`; Python slicing `s[:n]` is
`List.take n`.  Exceptions are modelled with `Except`; a `try/except` block
becomes a `match` on the `Except` value.  Side effects of one scheduler tick
are recorded as a trace (`List Event`), each event tagged with the id of the
reminder whose processing emitted it.
-/

/-- A stored reminder, as read by the scheduler (`ReminderModel.to_pydantic`).
Only the fields the scheduler consults are embedded: `id`, `text`, `due_at`
(naive timestamp, seconds) and `done_at`.  `priority`, `project_context`,
`created_at` and `ai_suggested_text` are never read by the scheduler loop. -/
structure Reminder where
  id : Nat
  text : List Char
  due_at : Int
  done_at : Option Int
  deriving DecidableEq

/-- Python `\s` on the characters relevant here (ASCII whitespace plus the
Unicode spaces Python's `re` accepts for `str` patterns). -/
def isPyWhitespace (c : Char) : Bool :=
  c = ' ' || c = '\t' || c = '\n' || c = '\r' || c = '\x0b' || c = '\x0c' ||
  c = '\x1c' || c = '\x1d' || c = '\x1e' || c = '\x1f' || c = '\x85' ||
  c = ' ' || c = ' ' || c = ' ' || c = ' ' || c = ' ' ||
  c = ' ' || c = ' ' || c = ' ' || c = ' ' || c = ' ' ||
  c = ' ' || c = ' ' || c = ' ' || c = ' ' || c = ' ' ||
  c = ' ' || c = ' ' || c = '　'

/-- Matching of the regex fragment `(.+)$` against a whole suffix `t`
(no `MULTILINE`, no `DOTALL`): `.` excludes `'\n'`, the group is greedy and
non-empty, and `$` matches at the end of the string or just before a final
newline.  Returns the text captured by the group. -/
def dotPlusEnd (t : List Char) : Option (List Char) :=
  let body := if t.getLast? = some '\n' then t.dropLast else t
  if body.isEmpty then none
  else if body.all (fun c => c ≠ '\n') then some body else none

/-- Backtracking for `\s*(.+)$`: `\s*` is greedy, so the longest whitespace
prefix (length `j`) is tried first and shortened on failure. -/
def tailGo (s : List Char) : Nat → Option (List Char)
  | 0 => dotPlusEnd s
  | j + 1 =>
    match dotPlusEnd (s.drop (j + 1)) with
    | some g => some g
    | none => tailGo s j

/-- Matching of the regex fragment `\s*(.+)$` against a whole suffix `s`,
returning the text captured by the group. -/
def tailMatch (s : List Char) : Option (List Char) :=
  tailGo s (s.takeWhile isPyWhitespace).length

/-- Backtracking loop for the lazy group in `(.+?)\]\s*(.+)$`: the group grows
one character at a time (each matched by `.`, hence not a newline); after each
growth step the engine first tries to match `\]` and the tail at the current
position before growing further.  `g1rev` holds the group read so far,
reversed. -/
def agentLoop (g1rev : List Char) : List Char → Option (List Char × List Char)
  | [] => none
  | c :: rest =>
    if c = '\n' then none
    else
      match rest with
      | ']' :: rest2 =>
        match tailMatch rest2 with
        | some g2 => some ((c :: g1rev).reverse, g2)
        | none => agentLoop (c :: g1rev) rest
      | _ => agentLoop (c :: g1rev) rest

/-- `AGENT_PATTERN = re.compile(r"^\[AGENT:(.+?)\]\s*(.+)$")` applied with
`.match` (anchored at the start): returns `some (workdir, task)` on a match
(the two captured groups) and `none` otherwise. -/
def agent_pattern_match : List Char → Option (List Char × List Char)
  | '[' :: 'A' :: 'G' :: 'E' :: 'N' :: 'T' :: ':' :: rest => agentLoop [] rest
  | _ => none

/-! ## Scheduler state, environment and events -/

/-- Outcome of `subprocess.run(["claude", "-p", task, ...], cwd=cwd, ...)`:
either the process finished within the timeout (with a return code, stdout and
stderr), or `subprocess.TimeoutExpired` was raised, or `FileNotFoundError`
(the `claude` executable is not installed), or some other exception. -/
inductive RunOutcome where
  | completed (returncode : Int) (stdout stderr : List Char)
  | timedOut
  | fileNotFound
  | errored (msg : List Char)
  deriving DecidableEq

/-- Environment of one scheduler tick: the stored reminders, the current
instant (`utc_now` is what `datetime.now(timezone.utc)` reads, `utc_now +
local_offset` is what naive `datetime.now()` reads), and the outcome the agent
subprocess would have for a given working directory and task. -/
structure SchedEnv where
  store : List Reminder
  utc_now : Int
  local_offset : Int
  agentRun : List Char → List Char → RunOutcome

/-- The naive local wall clock `datetime.now()` used by the repository
queries. -/
def localNow (env : SchedEnv) : Int :=
  env.utc_now + env.local_offset

/-- Mutable scheduler state (`SchedulerRunner.notified_ids` /
`last_nudge_times`); `last_nudge_times` is an association list read through
`lookupTime`. -/
structure SchedState where
  notified_ids : Finset Nat
  last_nudge_times : List (Nat × Int)

/-- Dictionary lookup in `last_nudge_times`. -/
def lookupTime : List (Nat × Int) → Nat → Option Int
  | [], _ => none
  | (k, v) :: rest, i => if k = i then some v else lookupTime rest i

/-- One observable side effect of a tick.  `notifyDue i t` is the completion
of a `notify_reminder_due(t)` call made while processing reminder `i`
(urgency `normal`); `notifyNudge` is a `notify_nudge` call (urgency
`critical`); `addNotified` / `setNudgeTime` are the updates of the scheduler's
escalation state; `logInfo` / `logError` are `output.info` / `output.error`
lines. -/
inductive Event where
  | notifyDue (id : Nat) (text : List Char)
  | notifyNudge (id : Nat) (text : List Char)
  | addNotified (id : Nat)
  | setNudgeTime (id : Nat) (t : Int)
  | logInfo (msg : List Char)
  | logError (msg : List Char)
  deriving DecidableEq

/-! ## Store queries (`ReminderRepository`)

Both queries call naive `datetime.now()` and order by `due_at`. -/

/-- `ReminderRepository.get_overdue`: `due_at < now` and `done_at IS NULL`,
ordered by `due_at`, where `now = datetime.now()` (naive local time). -/
def get_overdue (env : SchedEnv) : List Reminder :=
  ((env.store.filter fun r =>
      decide (r.due_at < localNow env) && r.done_at.isNone)).insertionSort
    fun a b => a.due_at ≤ b.due_at

/-- `ReminderRepository.get_upcoming(hours=24)`: `now ≤ due_at ≤ now + 24h`
and `done_at IS NULL`, ordered by `due_at`, with `now = datetime.now()`. -/
def get_upcoming (env : SchedEnv) : List Reminder :=
  ((env.store.filter fun r =>
      decide (localNow env ≤ r.due_at) &&
      decide (r.due_at ≤ localNow env + 24 * 3600) &&
      r.done_at.isNone)).insertionSort
    fun a b => a.due_at ≤ b.due_at

/-! ## Nudge policy (`SchedulerRunner._should_nudge`) -/

/-- `self.nudge_intervals_minutes = [30, 60, 120]`. -/
def nudge_intervals_minutes : List Nat := [30, 60, 120]

/-- `(a - b).total_seconds() / 60`: elapsed minutes between two instants,
as an exact rational (Python computes this in floating point; the values
involved are far below the precision where the two could disagree on a
comparison with a small integer threshold). -/
def minutes_between (a b : Int) : ℚ :=
  ((a - b : Int) : ℚ) / 60

/-- `SchedulerRunner._should_nudge(reminder_id, due_at)`.  `now` is
`datetime.now(timezone.utc)`; a naive `due_at` is reinterpreted as UTC
(`replace(tzinfo=timezone.utc)`), which leaves its numeric value unchanged.
With no recorded nudge: true iff minutes since `due_at` exceed the first
interval.  Otherwise: true iff minutes since the recorded nudge exceed some
interval in the list (the source returns on the first match of an ascending
scan, which yields the same boolean). -/
def should_nudge (last_nudge_times : List (Nat × Int)) (reminder_id : Nat)
    (due_at : Int) (now : Int) : Bool :=
  match lookupTime last_nudge_times reminder_id with
  | none => decide (minutes_between now due_at > (nudge_intervals_minutes.getD 0 0 : ℚ))
  | some last_nudge =>
    nudge_intervals_minutes.any fun interval =>
      decide (minutes_between now last_nudge > (interval : ℚ))

/-! ## Agent task execution (`SchedulerRunner._execute_agent_task`) -/

/-- `f"Executing agent task #{reminder.id}: {task} (in {cwd})"`. -/
def exec_log_msg (id : Nat) (task cwd : List Char) : List Char :=
  "Executing agent task #".toList ++ (Nat.repr id).toList ++ ": ".toList ++
    task ++ " (in ".toList ++ cwd ++ ")".toList

/-- `f"Agent starting: {task}"`. -/
def starting_msg (task : List Char) : List Char :=
  "Agent starting: ".toList ++ task

/-- `f"Agent completed: {task}"`. -/
def completed_msg (task : List Char) : List Char :=
  "Agent completed: ".toList ++ task

/-- `f"Agent failed: {task}"`. -/
def failed_msg (task : List Char) : List Char :=
  "Agent failed: ".toList ++ task

/-- `f"Agent timed out: {task}"`. -/
def timed_out_msg (task : List Char) : List Char :=
  "Agent timed out: ".toList ++ task

/-- `f"Agent task #{reminder.id} completed successfully"`. -/
def completed_log_msg (id : Nat) : List Char :=
  "Agent task #".toList ++ (Nat.repr id).toList ++
    " completed successfully".toList

/-- `f"Agent task #{reminder.id} failed: {result.stderr[:200]}"`. -/
def failed_log_msg (id : Nat) (stderr : List Char) : List Char :=
  "Agent task #".toList ++ (Nat.repr id).toList ++ " failed: ".toList ++
    stderr.take 200

/-- `f"Agent task #{reminder.id} timed out after 10 minutes"`. -/
def timed_out_log_msg (id : Nat) : List Char :=
  "Agent task #".toList ++ (Nat.repr id).toList ++
    " timed out after 10 minutes".toList

/-- `"Claude CLI not found. Install it to use agent reminders."`. -/
def cli_not_found_log_msg : List Char :=
  "Claude CLI not found. Install it to use agent reminders.".toList

/-- `f"Agent task error: {e}"`. -/
def agent_error_log_msg (e : List Char) : List Char :=
  "Agent task error: ".toList ++ e

/-- `SchedulerRunner._execute_agent_task(reminder, cwd, task)`: log, dispatch
the "starting" notification, run the subprocess, and translate its outcome.
Every exception branch of the source (`TimeoutExpired`, `FileNotFoundError`,
bare `Exception`) is handled here, so the function is total and nothing
propagates to the tick. -/
def execute_agent_task (env : SchedEnv) (r : Reminder) (cwd task : List Char) :
    List Event :=
  Event.logInfo (exec_log_msg r.id task cwd) ::
  Event.notifyDue r.id (starting_msg task) ::
  match env.agentRun cwd task with
  | RunOutcome.completed rc _ stderr =>
    if rc = 0 then
      [Event.logInfo (completed_log_msg r.id),
       Event.notifyDue r.id (completed_msg task)]
    else
      [Event.logError (failed_log_msg r.id stderr),
       Event.notifyDue r.id (failed_msg task)]
  | RunOutcome.timedOut =>
    [Event.logError (timed_out_log_msg r.id),
     Event.notifyDue r.id (timed_out_msg task)]
  | RunOutcome.fileNotFound =>
    [Event.logError cli_not_found_log_msg]
  | RunOutcome.errored e =>
    [Event.logError (agent_error_log_msg e)]

/-- `SchedulerRunner._send_notification(reminder)`: agent reminders are routed
to the executor, all others get one `notify_reminder_due` call (whose
exceptions are caught in the source; the modelled dispatcher never raises). -/
def send_notification (env : SchedEnv) (r : Reminder) : List Event :=
  match agent_pattern_match r.text with
  | some (cwd, task) => execute_agent_task env r cwd task
  | none => [Event.notifyDue r.id r.text]

/-! ## One scheduler tick (`SchedulerRunner._check_and_notify`) -/

/-- The overdue pass: for each reminder not yet in `notified_ids`, call
`_send_notification` and then add its id (`self.notified_ids.add` runs after
`_send_notification` returns).  Returns the final id set and the trace. -/
def processOverdue (env : SchedEnv) :
    List Reminder → Finset Nat → Finset Nat × List Event
  | [], ids => (ids, [])
  | r :: rest, ids =>
    if r.id ∈ ids then processOverdue env rest ids
    else
      let tail := processOverdue env rest (insert r.id ids)
      (tail.1,
        send_notification env r ++ Event.addNotified r.id :: tail.2)

/-- The upcoming pass: for each reminder for which `_should_nudge` holds, send
the nudge (`notify_nudge`, urgency `critical`) and record
`last_nudge_times[id] = now` where `now` is the tick's UTC instant. -/
def processUpcoming (env : SchedEnv) :
    List Reminder → List (Nat × Int) → List (Nat × Int) × List Event
  | [], m => (m, [])
  | r :: rest, m =>
    if should_nudge m r.id r.due_at env.utc_now then
      let tail := processUpcoming env rest ((r.id, env.utc_now) :: m)
      (tail.1,
        Event.notifyNudge r.id r.text ::
          Event.setNudgeTime r.id env.utc_now :: tail.2)
    else processUpcoming env rest m

/-- One full tick of `SchedulerRunner._check_and_notify`: the overdue pass
over `get_overdue`, then the nudge pass over `get_upcoming`.  Nothing in the
model raises, so the surrounding `try/except` of the source is invisible. -/
def check_and_notify (env : SchedEnv) (s : SchedState) :
    SchedState × List Event :=
  let ov := processOverdue env (get_overdue env) s.notified_ids
  let up := processUpcoming env (get_upcoming env) s.last_nudge_times
  (⟨ov.1, up.1⟩, ov.2 ++ up.2)

/-! ## Notification dispatcher (`NotificationManager`)

Delivery outcomes depend on the host platform, the availability of the
optional dependencies, and whether the individual channel calls raise; all of
that is collected in a `NotifyEnv`.  A Python call that may raise is an
`Except PyErr Unit` value; a `try/except` becomes a `match`. -/

/-- The exceptions the dispatcher distinguishes. -/
inductive PyErr where
  | fileNotFound
  | timeoutExpired
  | dbusErr
  | otherErr
  deriving DecidableEq

/-- `urgency` argument; the source passes only `"low"`, `"normal"` and
`"critical"` (unknown strings behave like `"normal"` through `dict.get`
defaults). -/
inductive Urgency where
  | low
  | normal
  | critical
  deriving DecidableEq

/-- Host environment of one `notify` call. -/
structure NotifyEnv where
  is_macos : Bool
  is_linux : Bool
  notifypyAvailable : Bool
  soundAvailable : Bool
  dbusImportOk : Bool
  soundRun : Except PyErr Unit
  osascriptRun : Except PyErr Unit
  dbusNotifyCall : Except PyErr Unit
  notifySendRun : Except PyErr Unit
  notifypySend : Except PyErr Unit

/-- `NotificationManager._play_sound`: skipped silently when no player is
available; every exception of the player subprocess (`TimeoutExpired`,
`FileNotFoundError`, bare `Exception`) is caught in the source, so the call
never raises. -/
def play_sound (env : NotifyEnv) (_urgency : Urgency) : Except PyErr Unit :=
  if !env.soundAvailable then Except.ok ()
  else if env.is_macos then
    match env.soundRun with
    | Except.ok () => Except.ok ()
    | Except.error _ => Except.ok ()
  else if env.is_linux then
    match env.soundRun with
    | Except.ok () => Except.ok ()
    | Except.error _ => Except.ok ()
  else Except.ok ()

/-- `NotificationManager._notify_macos`: `osascript` is run with
`check=False`, so only a raised exception (caught, returning `False`) can
prevent the `True` return. -/
def notify_macos (env : NotifyEnv) : Except PyErr Bool :=
  match env.osascriptRun with
  | Except.ok () => Except.ok true
  | Except.error _ => Except.ok false

/-- `NotificationManager._notify_linux_notify_send`: `FileNotFoundError` and
any other exception both yield `False`. -/
def notify_linux_notify_send (env : NotifyEnv) : Except PyErr Bool :=
  match env.notifySendRun with
  | Except.ok () => Except.ok true
  | Except.error PyErr.fileNotFound => Except.ok false
  | Except.error _ => Except.ok false

/-- `NotificationManager._notify_linux`: D-Bus when importable, with a
fallback to `notify-send` when the import fails or the D-Bus call raises. -/
def notify_linux (env : NotifyEnv) : Except PyErr Bool :=
  if !env.dbusImportOk then notify_linux_notify_send env
  else
    match env.dbusNotifyCall with
    | Except.ok () => Except.ok true
    | Except.error _ => notify_linux_notify_send env

/-- The body of the `try` block of `NotificationManager.notify`: platform
dispatch, `notify-py` for other platforms, console fallback returning `False`
when nothing is available. -/
def notifyBody (env : NotifyEnv) : Except PyErr Bool :=
  if env.is_macos then notify_macos env
  else if env.is_linux then notify_linux env
  else if env.notifypyAvailable then
    match env.notifypySend with
    | Except.ok () => Except.ok true
    | Except.error e => Except.error e
  else Except.ok false

/-- `NotificationManager.notify(title, message, urgency, sound)`.  The sound
is played before the `try` block (so an exception there would propagate, but
`play_sound` never produces one); every exception of the body is caught by the
outer `except Exception`, which returns `False`.  `title` and `message` only
feed the channel payloads and cannot influence whether a call raises. -/
def notify (env : NotifyEnv) (_title _message : List Char) (urgency : Urgency)
    (sound : Bool) : Except PyErr Bool :=
  match (if sound then play_sound env urgency else Except.ok ()) with
  | Except.error e => Except.error e
  | Except.ok () =>
    match notifyBody env with
    | Except.ok b => Except.ok b
    | Except.error _ => Except.ok false

/-- All delivery channels of `env` are unavailable or raise: exactly the
environments in which nothing is delivered. -/
def channelFailed (env : NotifyEnv) : Bool :=
  if env.is_macos then !env.osascriptRun.isOk
  else if env.is_linux then
    (!env.dbusImportOk || !env.dbusNotifyCall.isOk) && !env.notifySendRun.isOk
  else !env.notifypyAvailable || !env.notifypySend.isOk

/-- Message preparation of `NotificationManager.notify_reminder_due`:
`reminder_text[:150] + ("..." if len(reminder_text) > 150 else "")`. -/
def notify_reminder_due_message (reminder_text : List Char) : List Char :=
  reminder_text.take 150 ++
    (if 150 < reminder_text.length then "...".toList else [])

/-- Message preparation of `NotificationManager.notify_nudge` (same
truncation). -/
def notify_nudge_message (reminder_text : List Char) : List Char :=
  reminder_text.take 150 ++
    (if 150 < reminder_text.length then "...".toList else [])

/-- `NotificationManager.notify_reminder_due(reminder_text, sound)`: truncate
and forward with title `"Remind"` and urgency `normal`. -/
def notify_reminder_due (env : NotifyEnv) (reminder_text : List Char)
    (sound : Bool) : Except PyErr Bool :=
  notify env "Remind".toList (notify_reminder_due_message reminder_text)
    Urgency.normal sound

/-- `NotificationManager.notify_nudge(reminder_text, sound)`: truncate and
forward with title `"Remind - Still Due"` and urgency `critical`. -/
def notify_nudge (env : NotifyEnv) (reminder_text : List Char)
    (sound : Bool) : Except PyErr Bool :=
  notify env "Remind - Still Due".toList (notify_nudge_message reminder_text)
    Urgency.critical sound

/-! ## Spec-side definitions

For the refinement claims, definitions written from the specification's own
words, to be compared with the embedded source. -/

/-- Spec wording for the overdue query: "reminders with `due_at < now` and
`done_at = null`", where "`now` = current UTC time" and "comparisons are
always done in UTC". -/
def overdue_spec_utc (env : SchedEnv) : List Reminder :=
  env.store.filter fun r =>
    decide (r.due_at < env.utc_now) && r.done_at.isNone

/-- Substring test (`x in s` on Python strings): `needle` occurs contiguously
in `haystack`. -/
def containsSeq (haystack needle : List Char) : Bool :=
  (List.range (haystack.length + 1)).any fun i =>
    (haystack.drop i).take needle.length = needle

/-! ## Helper lemmas about the tick -/

theorem mem_get_overdue {env : SchedEnv} {r : Reminder} :
    r ∈ get_overdue env ↔
      r ∈ env.store ∧ r.due_at < localNow env ∧ r.done_at = none := by
  unfold get_overdue
  rw [List.mem_insertionSort, List.mem_filter]
  simp [Option.isNone_iff_eq_none]

theorem mem_processOverdue_fst (env : SchedEnv) (l : List Reminder) :
    ∀ (ids : Finset Nat) (a : Nat), a ∈ ids → a ∈ (processOverdue env l ids).1 := by
  induction l with
  | nil => intro ids a h; exact h
  | cons r rest ih =>
    intro ids a h
    by_cases hr : r.id ∈ ids
    · simpa [processOverdue, hr] using ih ids a h
    · simpa [processOverdue, hr] using
        ih (insert r.id ids) a (Finset.mem_insert_of_mem h)

theorem execute_agent_task_due_id (env : SchedEnv) (r : Reminder)
    (cwd task : List Char) (i : Nat) (t : List Char)
    (h : Event.notifyDue i t ∈ execute_agent_task env r cwd task) : i = r.id := by
  unfold execute_agent_task at h
  cases hr : env.agentRun cwd task with
  | completed rc out err =>
    rw [hr] at h
    by_cases hrc : rc = 0 <;> simp_all <;> tauto
  | timedOut => rw [hr] at h; simp_all; tauto
  | fileNotFound => rw [hr] at h; simp_all
  | errored e => rw [hr] at h; simp_all

theorem send_notification_due_id (env : SchedEnv) (r : Reminder) (i : Nat)
    (t : List Char) (h : Event.notifyDue i t ∈ send_notification env r) :
    i = r.id := by
  unfold send_notification at h
  cases hm : agent_pattern_match r.text with
  | none => rw [hm] at h; simp_all
  | some p =>
    obtain ⟨cwd, task⟩ := p
    rw [hm] at h
    exact execute_agent_task_due_id env r cwd task i t h

theorem processOverdue_no_due_of_mem (env : SchedEnv) (l : List Reminder) :
    ∀ (ids : Finset Nat) (i : Nat) (t : List Char), i ∈ ids →
      Event.notifyDue i t ∉ (processOverdue env l ids).2 := by
  induction l with
  | nil => intro ids i t _ hc; simp [processOverdue] at hc
  | cons r rest ih =>
    intro ids i t h hc
    by_cases hr : r.id ∈ ids
    · rw [processOverdue, if_pos hr] at hc
      exact ih ids i t h hc
    · rw [processOverdue, if_neg hr] at hc
      simp only [List.append_assoc, List.mem_append, List.mem_cons] at hc
      rcases hc with hc | hc | hc
      · have := send_notification_due_id env r i t hc
        subst this
        exact hr h
      · exact Event.noConfusion hc
      · exact ih (insert r.id ids) i t (Finset.mem_insert_of_mem h) hc

theorem processUpcoming_no_due (env : SchedEnv) (l : List Reminder) :
    ∀ (m : List (Nat × Int)) (i : Nat) (t : List Char),
      Event.notifyDue i t ∉ (processUpcoming env l m).2 := by
  induction l with
  | nil => intro m i t hc; simp [processUpcoming] at hc
  | cons r rest ih =>
    intro m i t hc
    by_cases hs : should_nudge m r.id r.due_at env.utc_now = true
    · rw [processUpcoming, if_pos hs] at hc
      simp only [List.mem_cons] at hc
      rcases hc with hc | hc | hc
      · exact Event.noConfusion hc
      · exact Event.noConfusion hc
      · exact ih _ i t hc
    · rw [processUpcoming, if_neg hs] at hc
      exact ih m i t hc

theorem processOverdue_no_due_of_not_id (env : SchedEnv) (l : List Reminder) :
    ∀ (ids : Finset Nat) (i : Nat) (t : List Char), i ∉ l.map Reminder.id →
      Event.notifyDue i t ∉ (processOverdue env l ids).2 := by
  induction l with
  | nil => intro ids i t _ hc; simp [processOverdue] at hc
  | cons r rest ih =>
    intro ids i t h hc
    rw [List.map_cons, List.mem_cons] at h
    push_neg at h
    by_cases hr : r.id ∈ ids
    · rw [processOverdue, if_pos hr] at hc
      exact ih ids i t h.2 hc
    · rw [processOverdue, if_neg hr] at hc
      simp only [List.append_assoc, List.mem_append, List.mem_cons] at hc
      rcases hc with hc | hc | hc
      · exact h.1 (send_notification_due_id env r i t hc)
      · exact Event.noConfusion hc
      · exact ih (insert r.id ids) i t h.2 hc

theorem processOverdue_decomp (env : SchedEnv) (l : List Reminder) :
    ∀ (ids : Finset Nat) (r : Reminder),
      (l.map Reminder.id).Nodup → r ∈ l → r.id ∉ ids →
      r.id ∈ (processOverdue env l ids).1 ∧
      ∃ pre post,
        (processOverdue env l ids).2 =
          pre ++ send_notification env r ++ Event.addNotified r.id :: post ∧
        (∀ t, Event.notifyDue r.id t ∉ pre) ∧
        (∀ t, Event.notifyDue r.id t ∉ post) := by
  induction l with
  | nil => intro ids r _ hmem; cases hmem
  | cons x rest ih =>
    intro ids r hnd hmem hnot
    rw [List.map_cons, List.nodup_cons] at hnd
    rcases List.mem_cons.mp hmem with rfl | hmem'
    · rw [processOverdue, if_neg hnot]
      refine ⟨mem_processOverdue_fst env rest (insert r.id ids) r.id
          (Finset.mem_insert_self _ _), [],
        (processOverdue env rest (insert r.id ids)).2, by simp, by simp, ?_⟩
      intro t hc
      exact processOverdue_no_due_of_not_id env rest (insert r.id ids) r.id t
        hnd.1 hc
    · have hid : r.id ∈ rest.map Reminder.id := List.mem_map_of_mem _ hmem'
      have hne : x.id ≠ r.id := fun h => hnd.1 (h ▸ hid)
      by_cases hx : x.id ∈ ids
      · rw [processOverdue, if_pos hx]
        exact ih ids r hnd.2 hmem' hnot
      · rw [processOverdue, if_neg hx]
        have hnot' : r.id ∉ insert x.id ids := by
          rw [Finset.mem_insert]
          push_neg
          exact ⟨fun h => hne h.symm, hnot⟩
        obtain ⟨h1, pre, post, heq, hpre, hpost⟩ :=
          ih (insert x.id ids) r hnd.2 hmem' hnot'
        refine ⟨h1, send_notification env x ++ Event.addNotified x.id :: pre,
          post, ?_, ?_, hpost⟩
        · simp [heq, List.append_assoc]
        · intro t hc
          rcases List.mem_append.mp hc with hc | hc
          · exact hne (send_notification_due_id env x r.id t hc).symm
          · rcases List.mem_cons.mp hc with hc | hc
            · exact Event.noConfusion hc
            · exact hpre t hc

theorem get_overdue_ids_nodup (env : SchedEnv)
    (h : (env.store.map Reminder.id).Nodup) :
    ((get_overdue env).map Reminder.id).Nodup := by
  unfold get_overdue
  have hperm := List.perm_insertionSort (fun a b => a.due_at ≤ b.due_at)
    (env.store.filter fun r =>
      decide (r.due_at < localNow env) && r.done_at.isNone)
  refine ((hperm.map Reminder.id).nodup_iff).mpr ?_
  exact h.sublist ((List.filter_sublist _).map _)

theorem completed_msg_ne_starting (task : List Char) :
    completed_msg task ≠ starting_msg task := by
  intro h
  have hlen := congrArg List.length h
  have h1 : ("Agent completed: ".toList).length = 17 := rfl
  have h2 : ("Agent starting: ".toList).length = 16 := rfl
  simp only [completed_msg, starting_msg, List.length_append, h1, h2] at hlen
  omega

theorem failed_msg_ne_starting (task : List Char) :
    failed_msg task ≠ starting_msg task := by
  intro h
  have hlen := congrArg List.length h
  have h1 : ("Agent failed: ".toList).length = 14 := rfl
  have h2 : ("Agent starting: ".toList).length = 16 := rfl
  simp only [failed_msg, starting_msg, List.length_append, h1, h2] at hlen
  omega

theorem timed_out_msg_ne_starting (task : List Char) :
    timed_out_msg task ≠ starting_msg task := by
  intro h
  have hlen := congrArg List.length h
  have h1 : ("Agent timed out: ".toList).length = 17 := rfl
  have h2 : ("Agent starting: ".toList).length = 16 := rfl
  simp only [timed_out_msg, starting_msg, List.length_append, h1, h2] at hlen
  omega

/-! ## Concrete instances used by the claim theorems -/

/-- `NotificationState` at daemon start: both maps empty. -/
def initialState : SchedState := ⟨∅, []⟩

/-- A plain reminder that is 31 minutes overdue at UTC instant 0. -/
def rOverdue31 : Reminder := ⟨1, "water plants".toList, -1860, none⟩

/-- Tick environment at UTC instant 0, local clock equal to UTC, storing only
`rOverdue31`. -/
def envOverdue31 : SchedEnv := ⟨[rOverdue31], 0, 0, fun _ _ => RunOutcome.timedOut⟩

/-- Scheduler state in which `rOverdue31` has already been notified. -/
def notifiedOnceState : SchedState := ⟨{1}, []⟩

/-- An agent reminder whose subprocess exits with code 1 and stderr
`"boom"`. -/
def rAgentFail : Reminder := ⟨3, "[AGENT:/tmp] deploy".toList, -60, none⟩

/-- Environment in which the agent subprocess exits 1 with stderr `"boom"`. -/
def envAgentFail : SchedEnv :=
  ⟨[rAgentFail], 0, 0, fun _ _ => RunOutcome.completed 1 [] "boom".toList⟩

/-- A reminder due one hour after UTC instant 0. -/
def rDueLocalGap : Reminder := ⟨4, "pay rent".toList, 3600, none⟩

/-- Environment at UTC instant 0 on a host whose local clock is two hours
ahead of UTC (e.g. UTC+2). -/
def envLocalAhead : SchedEnv :=
  ⟨[rDueLocalGap], 0, 7200, fun _ _ => RunOutcome.timedOut⟩

/-- An overdue agent reminder in a host without the agent executable. -/
def rAgentMissing : Reminder :=
  ⟨7, "[AGENT:/home/me/proj] refactor module".toList, -60, none⟩

/-- Environment in which launching the agent subprocess raises
`FileNotFoundError`. -/
def envAgentMissing : SchedEnv :=
  ⟨[rAgentMissing], 0, 0, fun _ _ => RunOutcome.fileNotFound⟩

/-- `true` iff some `addNotified i` event occurs strictly before some
`notifyDue i _` event in the trace: the claim-side reading of "the id is
added to `notifiedIds` before the dispatch side effect completes". -/
def hasDueFor (i : Nat) (tr : List Event) : Bool :=
  tr.any fun e =>
    match e with
    | Event.notifyDue j _ => j = i
    | _ => false

/-- Scan for an `addNotified i` that precedes a later dispatch event for
`i`. -/
def addPrecedesDispatch : List Event → Nat → Bool
  | [], _ => false
  | e :: rest, i =>
    (match e with
     | Event.addNotified j => j = i && hasDueFor i rest
     | _ => false) || addPrecedesDispatch rest i

/-! ## Claims -/

/-- C1.  The claim says: a reminder with `done_at = null`, overdue by more
than the first nudge threshold (30 minutes) and without a `lastNudgeTimes`
entry receives a critical escalation notification (and a `lastNudgeTimes`
update) from one tick.  The code instead evaluates nudges only over the
reminders returned by the 24-hour *upcoming* query (`due_at ≥ now`), which
can never contain this reminder, so the tick dispatches no nudge at all and
leaves `lastNudgeTimes` empty — even though `_should_nudge` itself would have
returned `true`.  This theorem evaluates one tick at such a failing input:
the premises of the claim hold, yet the trace contains only the initial
notification and the id bookkeeping, no `notifyNudge` event, and
`last_nudge_times` is unchanged. -/
theorem overdue_nudge_dead_code :
    minutes_between envOverdue31.utc_now rOverdue31.due_at > 30 ∧
    rOverdue31.done_at = none ∧
    lookupTime initialState.last_nudge_times rOverdue31.id = none ∧
    should_nudge initialState.last_nudge_times rOverdue31.id rOverdue31.due_at
      envOverdue31.utc_now = true ∧
    (check_and_notify envOverdue31 initialState).2 =
      [Event.notifyDue 1 "water plants".toList, Event.addNotified 1] ∧
    (check_and_notify envOverdue31 initialState).1.last_nudge_times = [] := by
  refine ⟨by norm_num [minutes_between, envOverdue31, rOverdue31], rfl, rfl,
    ?_, by decide, by decide⟩
  simp only [should_nudge, initialState, rOverdue31, envOverdue31, lookupTime,
    nudge_intervals_minutes, minutes_between]
  norm_num

/-- C2.  Once a reminder's id is in `notified_ids`, a tick keeps it there and
dispatches no further `notify_reminder_due` call for it — neither an initial
due notification nor any agent-execution notification (all of which are
`notifyDue` events tagged with the reminder's id).  Nudge (`notifyNudge`)
events are unaffected, as the claim's "initial (urgency normal)"
qualification requires. -/
theorem notified_ids_suppress_redispatch (env : SchedEnv) (s : SchedState)
    (r : Reminder) (h : r.id ∈ s.notified_ids) :
    r.id ∈ (check_and_notify env s).1.notified_ids ∧
    ∀ t, Event.notifyDue r.id t ∉ (check_and_notify env s).2 := by
  constructor
  · simpa [check_and_notify] using
      mem_processOverdue_fst env (get_overdue env) s.notified_ids r.id h
  · intro t hc
    simp only [check_and_notify, List.mem_append] at hc
    rcases hc with hc | hc
    · exact processOverdue_no_due_of_mem env (get_overdue env)
        s.notified_ids r.id t h hc
    · exact processUpcoming_no_due env (get_upcoming env)
        s.last_nudge_times r.id t hc

theorem notified_ids_suppress_redispatch_witness :
    rOverdue31.id ∈ notifiedOnceState.notified_ids ∧
    rOverdue31.id ∈
      (check_and_notify envOverdue31 notifiedOnceState).1.notified_ids ∧
    ∀ t, Event.notifyDue rOverdue31.id t ∉
      (check_and_notify envOverdue31 notifiedOnceState).2 :=
  ⟨by decide,
   (notified_ids_suppress_redispatch envOverdue31 notifiedOnceState rOverdue31
     (by decide)).1,
   (notified_ids_suppress_redispatch envOverdue31 notifiedOnceState rOverdue31
     (by decide)).2⟩

/-- C3, counterexample.  The claim says the id is added to `notified_ids`
*before* the dispatch side effect completes.  In the source,
`self.notified_ids.add(reminder.id)` runs only after `_send_notification`
returns: at a concrete overdue reminder, the tick's trace is the dispatch
completion followed by the add, and no `addNotified 1` precedes a dispatch
event for id 1. -/
theorem add_before_dispatch_counterexample :
    (check_and_notify envOverdue31 initialState).2 =
      [Event.notifyDue 1 "water plants".toList, Event.addNotified 1] ∧
    addPrecedesDispatch (check_and_notify envOverdue31 initialState).2 1 =
      false := by decide

/-- C3, amended.  When a tick processes an overdue reminder `r` whose id is
not yet in `notified_ids`, `r.id` is added to `notified_ids` immediately
*after* the dispatch / agent-execution side effect completes and before any
further reminder is processed: the trace decomposes as the dispatch block of
`r` directly followed by `addNotified r.id`, and `r.id` is in the final id
set (so later ticks cannot re-dispatch). -/
theorem add_after_dispatch (env : SchedEnv) (s : SchedState) (r : Reminder)
    (hnd : (env.store.map Reminder.id).Nodup)
    (hmem : r ∈ env.store) (hdue : r.due_at < localNow env)
    (hdone : r.done_at = none) (hnew : r.id ∉ s.notified_ids) :
    r.id ∈ (check_and_notify env s).1.notified_ids ∧
    ∃ pre post, (check_and_notify env s).2 =
      pre ++ send_notification env r ++ Event.addNotified r.id :: post := by
  have hnd' := get_overdue_ids_nodup env hnd
  have hov : r ∈ get_overdue env := mem_get_overdue.mpr ⟨hmem, hdue, hdone⟩
  obtain ⟨h1, pre, post, heq, -, -⟩ :=
    processOverdue_decomp env (get_overdue env) s.notified_ids r hnd' hov hnew
  refine ⟨by simpa [check_and_notify] using h1, pre,
    post ++ (processUpcoming env (get_upcoming env) s.last_nudge_times).2, ?_⟩
  simp [check_and_notify, heq, List.append_assoc]

theorem add_after_dispatch_witness :
    ((envOverdue31.store.map Reminder.id).Nodup ∧
     rOverdue31 ∈ envOverdue31.store ∧
     rOverdue31.due_at < localNow envOverdue31 ∧
     rOverdue31.done_at = none ∧
     rOverdue31.id ∉ initialState.notified_ids) ∧
    rOverdue31.id ∈ (check_and_notify envOverdue31 initialState).1.notified_ids :=
  ⟨⟨by decide, by decide, by decide, by decide, by decide⟩,
   (add_after_dispatch envOverdue31 initialState rOverdue31 (by decide)
     (by decide) (by decide) (by decide) (by decide)).1⟩

/-- C4, counterexample.  The claim says the "failed" notification includes a
truncated prefix of the subprocess's stderr.  At a concrete non-zero exit
with stderr `"boom"`, the executor's trace shows the failed notification
carries only `"Agent failed: deploy"`; the delivered message (after the
dispatcher's truncation) contains no occurrence of the stderr, which instead
goes to the error log line. -/
theorem failed_notification_stderr_counterexample :
    envAgentFail.agentRun "/tmp".toList "deploy".toList =
      RunOutcome.completed 1 [] "boom".toList ∧
    execute_agent_task envAgentFail rAgentFail "/tmp".toList "deploy".toList =
      [Event.logInfo (exec_log_msg 3 "deploy".toList "/tmp".toList),
       Event.notifyDue 3 (starting_msg "deploy".toList),
       Event.logError (failed_log_msg 3 "boom".toList),
       Event.notifyDue 3 (failed_msg "deploy".toList)] ∧
    containsSeq (notify_reminder_due_message (failed_msg "deploy".toList))
      "boom".toList = false ∧
    containsSeq (failed_log_msg 3 "boom".toList) "boom".toList = true := by
  decide

/-- C4, amended.  On a non-zero exit within the timeout the executor
dispatches a "failed" notification whose message is `"Agent failed: <task>"`
(without any stderr content), and writes an error log line
(`failed_log_msg`) that carries the first 200 characters of stderr. -/
theorem agent_failure_notification (env : SchedEnv) (r : Reminder)
    (cwd task out stderr : List Char) (rc : Int) (hrc : rc ≠ 0)
    (hrun : env.agentRun cwd task = RunOutcome.completed rc out stderr) :
    execute_agent_task env r cwd task =
      [Event.logInfo (exec_log_msg r.id task cwd),
       Event.notifyDue r.id (starting_msg task),
       Event.logError (failed_log_msg r.id stderr),
       Event.notifyDue r.id (failed_msg task)] := by
  unfold execute_agent_task
  rw [hrun]
  simp [hrc]

theorem agent_failure_notification_witness :
    (1 : Int) ≠ 0 ∧
    execute_agent_task envAgentFail rAgentFail "/tmp".toList "deploy".toList =
      [Event.logInfo (exec_log_msg rAgentFail.id "deploy".toList "/tmp".toList),
       Event.notifyDue rAgentFail.id (starting_msg "deploy".toList),
       Event.logError (failed_log_msg rAgentFail.id "boom".toList),
       Event.notifyDue rAgentFail.id (failed_msg "deploy".toList)] :=
  ⟨by decide,
   agent_failure_notification envAgentFail rAgentFail "/tmp".toList
     "deploy".toList [] "boom".toList 1 (by decide) rfl⟩

/-- C5.  `_should_nudge` against the ascending thresholds `[30, 60, 120]`:
with no `last_nudge_times` entry it returns true iff strictly more than 30
minutes (the first threshold) have elapsed since `due_at`; with a nudge
recorded at `t0` it returns false at `t0 + 29min`, true at `t0 + 61min`, and
in general true iff the minutes since `t0` strictly exceed some threshold in
the list. -/
theorem should_nudge_thresholds (m : List (Nat × Int)) (id : Nat)
    (due_at now t0 : Int) :
    (lookupTime m id = none →
      (should_nudge m id due_at now = true ↔
        minutes_between now due_at > 30)) ∧
    (lookupTime m id = some t0 →
      should_nudge m id due_at (t0 + 29 * 60) = false ∧
      should_nudge m id due_at (t0 + 61 * 60) = true ∧
      (should_nudge m id due_at now = true ↔
        ∃ i ∈ nudge_intervals_minutes, minutes_between now t0 > (i : ℚ))) := by
  constructor
  · intro h
    simp [should_nudge, h, nudge_intervals_minutes]
  · intro h
    refine ⟨?_, ?_, ?_⟩
    · simp only [should_nudge, h, nudge_intervals_minutes, minutes_between,
        List.any_cons, List.any_nil]
      push_cast
      norm_num
    · simp only [should_nudge, h, nudge_intervals_minutes, minutes_between,
        List.any_cons, List.any_nil]
      push_cast
      norm_num
    · simp [should_nudge, h, List.any_eq_true]

theorem should_nudge_thresholds_witness :
    lookupTime [] 1 = none ∧
    should_nudge [] 1 0 1860 = true ∧
    lookupTime [((1 : Nat), (0 : Int))] 1 = some 0 ∧
    should_nudge [((1 : Nat), (0 : Int))] 1 0 (0 + 29 * 60) = false ∧
    should_nudge [((1 : Nat), (0 : Int))] 1 0 (0 + 61 * 60) = true :=
  ⟨rfl,
   ((should_nudge_thresholds [] 1 0 1860 0).1 rfl).mpr
     (by norm_num [minutes_between]),
   rfl,
   ((should_nudge_thresholds [(1, 0)] 1 0 0 0).2 rfl).1,
   ((should_nudge_thresholds [(1, 0)] 1 0 0 0).2 rfl).2.1⟩

/-- C6, counterexample.  The claim says the overdue query compares `due_at`
against the current *UTC* time.  `ReminderRepository.get_overdue` actually
calls naive `datetime.now()` (local wall clock): on a host two hours ahead of
UTC, a reminder due one hour in the future (UTC) is returned as overdue,
while the spec-side UTC query excludes it. -/
theorem get_overdue_utc_counterexample :
    rDueLocalGap ∈ get_overdue envLocalAhead ∧
    rDueLocalGap ∉ overdue_spec_utc envLocalAhead := by decide

/-- C6, amended.  The overdue query returns exactly the stored reminders with
`due_at < now` and `done_at = null`, where `now` is the naive *local* wall
clock `datetime.now()` (not UTC), for every stored set of reminders. -/
theorem get_overdue_local_characterization (env : SchedEnv) (r : Reminder) :
    r ∈ get_overdue env ↔
      r ∈ env.store ∧ r.due_at < localNow env ∧ r.done_at = none :=
  mem_get_overdue

/-- C7.  Agent-reminder classification is exactly a match of `AGENT_PATTERN`:
`"[AGENT:/home/me/proj] refactor module"` matches with workdir
`"/home/me/proj"` and task `"refactor module"`, `"buy milk"` does not match,
and `_send_notification` routes a reminder to the agent executor iff its text
matches (otherwise it dispatches the plain due notification). -/
theorem agent_pattern_classification :
    (agent_pattern_match "[AGENT:/home/me/proj] refactor module".toList =
      some ("/home/me/proj".toList, "refactor module".toList)) ∧
    (agent_pattern_match "buy milk".toList = none) ∧
    (∀ env r cwd task, agent_pattern_match r.text = some (cwd, task) →
      send_notification env r = execute_agent_task env r cwd task) ∧
    (∀ env r, agent_pattern_match r.text = none →
      send_notification env r = [Event.notifyDue r.id r.text]) := by
  refine ⟨by decide, by decide, ?_, ?_⟩
  · intro env r cwd task h
    unfold send_notification
    rw [h]
  · intro env r h
    unfold send_notification
    rw [h]

theorem agent_pattern_classification_witness :
    send_notification envAgentMissing rAgentMissing =
      execute_agent_task envAgentMissing rAgentMissing
        "/home/me/proj".toList "refactor module".toList ∧
    send_notification envOverdue31 rOverdue31 =
      [Event.notifyDue rOverdue31.id rOverdue31.text] :=
  ⟨agent_pattern_classification.2.2.1 envAgentMissing rAgentMissing _ _
     (by decide),
   agent_pattern_classification.2.2.2 envOverdue31 rOverdue31 (by decide)⟩

/-- C8.  `notify_reminder_due` and `notify_nudge` forward the reminder text
unchanged when it has at most 150 characters, and otherwise forward exactly
its first 150 characters followed by `"..."`. -/
theorem message_truncation (s : List Char) :
    (s.length ≤ 150 →
      notify_reminder_due_message s = s ∧ notify_nudge_message s = s) ∧
    (150 < s.length →
      notify_reminder_due_message s = s.take 150 ++ "...".toList ∧
      notify_nudge_message s = s.take 150 ++ "...".toList) := by
  constructor
  · intro h
    have h2 : ¬ 150 < s.length := not_lt.mpr h
    constructor <;>
      simp [notify_reminder_due_message, notify_nudge_message, h2,
        List.take_of_length_le h]
  · intro h
    constructor <;>
      simp [notify_reminder_due_message, notify_nudge_message, h]

set_option maxRecDepth 4000 in
theorem message_truncation_witness :
    ("buy milk".toList.length ≤ 150 ∧
     notify_reminder_due_message "buy milk".toList = "buy milk".toList) ∧
    (150 < (List.replicate 200 'a').length ∧
     notify_reminder_due_message (List.replicate 200 'a') =
       (List.replicate 200 'a').take 150 ++ "...".toList ∧
     notify_nudge_message (List.replicate 200 'a') =
       (List.replicate 200 'a').take 150 ++ "...".toList) :=
  ⟨⟨by simp, ((message_truncation "buy milk".toList).1 (by simp)).1⟩,
   ⟨by simp, ((message_truncation (List.replicate 200 'a')).2 (by simp)).1,
    ((message_truncation (List.replicate 200 'a')).2 (by simp)).2⟩⟩

theorem play_sound_ok (env : NotifyEnv) (u : Urgency) :
    play_sound env u = Except.ok () := by
  unfold play_sound
  rcases env.soundRun with e | ⟨⟩ <;>
    · split
      · rfl
      · split
        · rfl
        · split
          · rfl
          · rfl

theorem notify_eq_bnot_channelFailed (env : NotifyEnv)
    (title message : List Char) (urgency : Urgency) (sound : Bool) :
    notify env title message urgency sound =
      Except.ok (!channelFailed env) := by
  have hps := play_sound_ok env urgency
  by_cases hmac : env.is_macos = true
  · rcases h : env.osascriptRun with e | ⟨⟩ <;> cases sound <;>
      simp [notify, hps, notifyBody, notify_macos, channelFailed, hmac, h,
        Except.isOk, Except.toBool]
  · by_cases hlin : env.is_linux = true
    · by_cases hdb : env.dbusImportOk = true
      · rcases h2 : env.dbusNotifyCall with e2 | ⟨⟩
        · rcases h3 : env.notifySendRun with e3 | ⟨⟩
          · cases e3 <;> cases sound <;>
              simp [notify, hps, notifyBody, notify_linux,
                notify_linux_notify_send, channelFailed, hmac, hlin, hdb, h2,
                h3, Except.isOk, Except.toBool]
          · cases sound <;>
              simp [notify, hps, notifyBody, notify_linux,
                notify_linux_notify_send, channelFailed, hmac, hlin, hdb, h2,
                h3, Except.isOk, Except.toBool]
        · cases sound <;>
            simp [notify, hps, notifyBody, notify_linux,
              notify_linux_notify_send, channelFailed, hmac, hlin, hdb, h2,
              Except.isOk, Except.toBool]
      · rcases h3 : env.notifySendRun with e3 | ⟨⟩
        · cases e3 <;> cases sound <;>
            simp [notify, hps, notifyBody, notify_linux,
              notify_linux_notify_send, channelFailed, hmac, hlin, hdb, h3,
              Except.isOk, Except.toBool]
        · cases sound <;>
            simp [notify, hps, notifyBody, notify_linux,
              notify_linux_notify_send, channelFailed, hmac, hlin, hdb, h3,
              Except.isOk, Except.toBool]
    · by_cases hnpy : env.notifypyAvailable = true
      · rcases h4 : env.notifypySend with e4 | ⟨⟩ <;> cases sound <;>
          simp [notify, hps, notifyBody, channelFailed, hmac, hlin, hnpy, h4,
            Except.isOk, Except.toBool]
      · cases sound <;>
          simp [notify, hps, notifyBody, channelFailed, hmac, hlin, hnpy,
            Except.isOk, Except.toBool]

/-- C9.  `notify` is total — for every host environment, urgency, sound flag
and payload it returns a boolean instead of raising (sound playback happens
before the `try` block but swallows its own errors; every exception of the
delivery body is caught by the outer handler) — and it returns
`delivered = false` exactly when the notification channel is unavailable or
every attempted delivery raises (`channelFailed`), the console fallback
cases included. -/
theorem notify_total_and_fallback (env : NotifyEnv) (title message : List Char)
    (urgency : Urgency) (sound : Bool) :
    (∃ b, notify env title message urgency sound = Except.ok b) ∧
    (notify env title message urgency sound = Except.ok false ↔
      channelFailed env = true) := by
  rw [notify_eq_bnot_channelFailed]
  refine ⟨⟨_, rfl⟩, ?_⟩
  cases h : channelFailed env <;> simp [h]

/-- C10.  When the agent executable is missing (`subprocess.run` raises
`FileNotFoundError`), a tick processing an overdue, not-yet-notified agent
reminder dispatches the "starting" notification and then only logs the
missing-CLI error: no "completed", "failed" or "timed out" notification is
emitted for that reminder, the exception never escapes the executor (the tick
continues: the trace extends past the block and the state update still
happens), and the reminder's id ends up in `notified_ids`, so the agent task
is not re-attempted during the process lifetime. -/
theorem agent_file_not_found (env : SchedEnv) (s : SchedState) (r : Reminder)
    (cwd task : List Char)
    (hnd : (env.store.map Reminder.id).Nodup)
    (hmem : r ∈ env.store) (hdue : r.due_at < localNow env)
    (hdone : r.done_at = none) (hnew : r.id ∉ s.notified_ids)
    (hmatch : agent_pattern_match r.text = some (cwd, task))
    (hrun : env.agentRun cwd task = RunOutcome.fileNotFound) :
    r.id ∈ (check_and_notify env s).1.notified_ids ∧
    (∃ pre post, (check_and_notify env s).2 =
      pre ++ [Event.logInfo (exec_log_msg r.id task cwd),
              Event.notifyDue r.id (starting_msg task),
              Event.logError cli_not_found_log_msg,
              Event.addNotified r.id] ++ post) ∧
    (∀ t, Event.notifyDue r.id t ∈ (check_and_notify env s).2 →
      t = starting_msg task) ∧
    Event.notifyDue r.id (completed_msg task) ∉ (check_and_notify env s).2 ∧
    Event.notifyDue r.id (failed_msg task) ∉ (check_and_notify env s).2 ∧
    Event.notifyDue r.id (timed_out_msg task) ∉ (check_and_notify env s).2 := by
  have hsend : send_notification env r =
      [Event.logInfo (exec_log_msg r.id task cwd),
       Event.notifyDue r.id (starting_msg task),
       Event.logError cli_not_found_log_msg] := by
    unfold send_notification execute_agent_task
    simp only [hmatch, hrun]
  have hnd' := get_overdue_ids_nodup env hnd
  have hov : r ∈ get_overdue env := mem_get_overdue.mpr ⟨hmem, hdue, hdone⟩
  obtain ⟨h1, pre, post, heq, hpre, hpost⟩ :=
    processOverdue_decomp env (get_overdue env) s.notified_ids r hnd' hov hnew
  have honly : ∀ t, Event.notifyDue r.id t ∈ (check_and_notify env s).2 →
      t = starting_msg task := by
    intro t hc
    simp only [check_and_notify, List.mem_append] at hc
    rcases hc with hc | hc
    · rw [heq, hsend] at hc
      rcases List.mem_append.mp hc with hc | hc
      · rcases List.mem_append.mp hc with hc | hc
        · exact absurd hc (hpre t)
        · rcases List.mem_cons.mp hc with hc | hc
          · exact Event.noConfusion hc
          · rcases List.mem_cons.mp hc with hc | hc
            · exact ((Event.notifyDue.injEq _ _ _ _).mp hc).2
            · rcases List.mem_cons.mp hc with hc | hc
              · exact Event.noConfusion hc
              · exact absurd hc (List.not_mem_nil _)
      · rcases List.mem_cons.mp hc with hc | hc
        · exact Event.noConfusion hc
        · exact absurd hc (hpost t)
    · exact absurd hc
        (processUpcoming_no_due env (get_upcoming env) s.last_nudge_times r.id t)
  refine ⟨by simpa [check_and_notify] using h1, ?_, honly, ?_, ?_, ?_⟩
  · refine ⟨pre,
      post ++ (processUpcoming env (get_upcoming env) s.last_nudge_times).2, ?_⟩
    simp [check_and_notify, heq, hsend, List.append_assoc]
  · intro hc
    exact completed_msg_ne_starting task (honly _ hc)
  · intro hc
    exact failed_msg_ne_starting task (honly _ hc)
  · intro hc
    exact timed_out_msg_ne_starting task (honly _ hc)

theorem agent_file_not_found_witness :
    ((envAgentMissing.store.map Reminder.id).Nodup ∧
     rAgentMissing ∈ envAgentMissing.store ∧
     rAgentMissing.due_at < localNow envAgentMissing ∧
     rAgentMissing.done_at = none ∧
     rAgentMissing.id ∉ initialState.notified_ids ∧
     agent_pattern_match rAgentMissing.text =
       some ("/home/me/proj".toList, "refactor module".toList) ∧
     envAgentMissing.agentRun "/home/me/proj".toList "refactor module".toList =
       RunOutcome.fileNotFound) ∧
    rAgentMissing.id ∈
      (check_and_notify envAgentMissing initialState).1.notified_ids :=
  ⟨⟨by decide, by decide, by decide, by decide, by decide, by decide, rfl⟩,
   (agent_file_not_found envAgentMissing initialState rAgentMissing
     "/home/me/proj".toList "refactor module".toList (by decide) (by decide)
     (by decide) (by decide) (by decide) (by decide) rfl).1⟩
